import Mathlib

/-!
Verification of the `elevenlabs_rs` client library: the conversational-AI
websocket session protocol (spec sections 3-7) and the conversations REST
endpoint helpers (`src/endpoints/convai/conversations.rs`).

Part 1 embeds the pure data types and builder methods of
`conversations.rs`.  Part 2 models the conversational-AI websocket session
core; its Rust modules (`client`, `client_messages`, `server_messages`,
`error`) are declared in `src/conversational_ai/mod.rs` but their bodies
are not part of the sources, so the model is taken from the specification
text (message codec with discriminated frames, event dispatcher, session
state machine, tool-call correlation).
-/

namespace ElevenLabs

/-! ## Part 1: conversations endpoint (`src/endpoints/convai/conversations.rs`) -/

/-- Status of a conversation, from `enum ConvoStatus { Done, Processing }`. -/
inductive ConvoStatus
  | Done
  | Processing
deriving DecidableEq, Repr

/-- Rust `ConvoStatus::is_done`: `matches!(*self, ConvoStatus::Done)`. -/
def ConvoStatus.is_done : ConvoStatus → Bool
  | .Done => true
  | _ => false

/-- Rust `ConvoStatus::is_processing`: `matches!(*self, ConvoStatus::Processing)`. -/
def ConvoStatus.is_processing : ConvoStatus → Bool
  | .Processing => true
  | _ => false

/-- Call outcome, from `enum CallSuccessful { Failure, Success, Unknown }`. -/
inductive CallSuccessful
  | Failure
  | Success
  | Unknown
deriving DecidableEq, Repr

/-- Rust `Display` via strum: `#[strum(to_string = "failure" | "success" | "unknown")]`. -/
def CallSuccessful.toString : CallSuccessful → String
  | .Failure => "failure"
  | .Success => "success"
  | .Unknown => "unknown"

/-- The Rust identifier of each `CallSuccessful` variant. -/
def CallSuccessful.variantName : CallSuccessful → String
  | .Failure => "Failure"
  | .Success => "Success"
  | .Unknown => "Unknown"

/-- Serde serialization of `CallSuccessful` under `#[serde(rename_all = "lowercase")]`:
the variant identifier with every character lowercased. -/
def CallSuccessful.serdeSerialize (c : CallSuccessful) : String :=
  String.mk (c.variantName.data.map Char.toLower)

/-- `QueryValues` from the endpoint shared module: `Vec<(&'static str, String)>`. -/
abbrev QueryValues := List (String × String)

/-- Rust `struct GetConversationsQuery { params: QueryValues }` with `Default`
(an empty parameter vector). -/
structure GetConversationsQuery where
  params : QueryValues := []
deriving DecidableEq, Repr

/-- Rust `GetConversationsQuery::with_agent_id`: pushes `("agent_id", agent_id)`. -/
def GetConversationsQuery.with_agent_id (q : GetConversationsQuery)
    (agent_id : String) : GetConversationsQuery :=
  { q with params := q.params ++ [("agent_id", agent_id)] }

/-- Rust `GetConversationsQuery::with_call_successful`: pushes
`("call_successful", call_successful.to_string())`. -/
def GetConversationsQuery.with_call_successful (q : GetConversationsQuery)
    (call_successful : CallSuccessful) : GetConversationsQuery :=
  { q with params := q.params ++ [("call_successful", call_successful.toString)] }

/-- Rust `GetConversationsQuery::with_cursor`: pushes `("cursor", cursor)`. -/
def GetConversationsQuery.with_cursor (q : GetConversationsQuery)
    (cursor : String) : GetConversationsQuery :=
  { q with params := q.params ++ [("cursor", cursor)] }

/-- Rust `GetConversationsQuery::with_page_size`: pushes
`("page_size", page_size.to_string())`; `u32::to_string` is the decimal
representation, `Nat.repr` here. -/
def GetConversationsQuery.with_page_size (q : GetConversationsQuery)
    (page_size : Nat) : GetConversationsQuery :=
  { q with params := q.params ++ [("page_size", Nat.repr page_size)] }

end ElevenLabs

namespace ElevenLabs

/-- C8: for every `ConvoStatus` value, `is_done` holds exactly on `Done`,
`is_processing` holds exactly on `Processing`, and the two predicates are
each other's negation, so exactly one of them is true. -/
theorem convoStatus_is_done_is_processing (s : ConvoStatus) :
    (s.is_done = true ↔ s = .Done) ∧
    (s.is_processing = true ↔ s = .Processing) ∧
    s.is_processing = !s.is_done := by
  cases s <;> simp [ConvoStatus.is_done, ConvoStatus.is_processing]

/-- C9: `CallSuccessful::to_string` yields exactly the lowercase variant name,
which coincides with the serde `rename_all = "lowercase"` serialization, and
`with_call_successful` appends exactly `("call_successful", that string)` to
the query parameters. -/
theorem callSuccessful_to_string_serde_query (c : CallSuccessful)
    (q : GetConversationsQuery) :
    c.toString = c.serdeSerialize ∧
    (c.toString = "failure" ∨ c.toString = "success" ∨ c.toString = "unknown") ∧
    (q.with_call_successful c).params = q.params ++ [("call_successful", c.toString)] := by
  refine ⟨?_, ?_, rfl⟩ <;> cases c <;>
    simp [CallSuccessful.toString, CallSuccessful.serdeSerialize,
      CallSuccessful.variantName]

/-- C10: every `GetConversationsQuery` builder method appends exactly one
key-value pair at the end of `params` and leaves every previously added pair
unchanged in place, so the final list records the builder calls in order. -/
theorem getConversationsQuery_builders_append (q : GetConversationsQuery)
    (a cu : String) (n : Nat) (c : CallSuccessful) :
    (q.with_agent_id a).params = q.params ++ [("agent_id", a)] ∧
    (q.with_call_successful c).params = q.params ++ [("call_successful", c.toString)] ∧
    (q.with_cursor cu).params = q.params ++ [("cursor", cu)] ∧
    (q.with_page_size n).params = q.params ++ [("page_size", Nat.repr n)] :=
  ⟨rfl, rfl, rfl, rfl⟩

end ElevenLabs

namespace ConvAI

/-! ## Part 2: conversational-AI websocket session core

The Rust modules `conversational_ai::client`, `::client_messages`,
`::server_messages` and `::error` are declared in
`src/conversational_ai/mod.rs` but their bodies are not among the sources,
so every definition below is modelled from the specification text. -/

/-- Modelled from the spec: a JSON-like field value of a wire frame
(spec section 6, "UTF-8 JSON-like frames"); the conversational-AI message
modules are missing from the sources. -/
inductive JsonVal
  | str (s : String)
  | num (n : Int)
  | bool (b : Bool)
deriving DecidableEq, Repr

/-- Modelled from the spec: a wire frame, "a required type discriminator
string and variant-specific fields" (spec section 6); the message codec
module is missing from the sources. -/
structure Frame where
  disc : String
  fields : List (String × JsonVal)
deriving DecidableEq, Repr

/-- Look up the first field with the given key. -/
def getField : List (String × JsonVal) → String → Option JsonVal
  | [], _ => none
  | (k, v) :: rest, key => if k = key then some v else getField rest key

/-- Look up a string-valued field. -/
def getStr (fields : List (String × JsonVal)) (key : String) : Option String :=
  match getField fields key with
  | some (.str s) => some s
  | _ => none

/-- Look up a number-valued field. -/
def getNum (fields : List (String × JsonVal)) (key : String) : Option Int :=
  match getField fields key with
  | some (.num n) => some n
  | _ => none

/-- Look up a boolean-valued field. -/
def getBool (fields : List (String × JsonVal)) (key : String) : Option Bool :=
  match getField fields key with
  | some (.bool b) => some b
  | _ => none

/-- Modelled from the spec: `ClientEvent`, "a tagged variant sent by the
caller to the server" with variants for conversation initiation
metadata/overrides, user audio chunk, contextual update, tool-call result
and ping response (spec section 3); the `client_messages` module is missing
from the sources. -/
inductive ClientEvent
  | conversationInitiation (prompt firstMessage language : Option String)
  | userAudioChunk (audio : String)
  | contextualUpdate (text : String)
  | toolCallResult (toolCallId result : String) (isError : Bool)
  | pong (eventId : Int)
deriving DecidableEq, Repr

/-- Modelled from the spec: `ServerEvent`, "a tagged variant received from
the server" (spec section 3), with a locally decodable mirror of a
tool-call result for round-trip testing (spec section 8); the
`server_messages` module is missing from the sources. -/
inductive ServerEvent
  | conversationInitiationMetadata (conversationId : String)
  | userTranscript (text : String)
  | agentResponse (text : String)
  | audio (chunk : String)
  | interruption
  | clientToolCall (toolCallId toolName params : String)
  | ping (eventId : Int)
  | vadScore (score : Int)
  | internalTentativeAgentResponse (text : String)
  | internalError (message : String)
  | toolCallResult (toolCallId result : String) (isError : Bool)
deriving DecidableEq, Repr

/-- Modelled from the spec: decode errors, "unknown-variant vs
malformed-payload" (spec sections 4.1 and 7); the `error` module is missing
from the sources. -/
inductive DecodeError
  | UnknownVariant
  | Malformed
deriving DecidableEq, Repr

/-- Modelled from the spec: `encode(ClientEvent) -> bytes` of the message
codec (spec section 4.1), with the discriminators of spec section 6;
encoding never fails for well-formed values. -/
def encode : ClientEvent → Frame
  | .conversationInitiation prompt firstMessage language =>
      ⟨"conversation_initiation_client_data",
        (prompt.map fun p => ("prompt", JsonVal.str p)).toList ++
        (firstMessage.map fun m => ("first_message", JsonVal.str m)).toList ++
        (language.map fun l => ("language", JsonVal.str l)).toList⟩
  | .userAudioChunk audio => ⟨"user_audio_chunk", [("user_audio_chunk", .str audio)]⟩
  | .contextualUpdate text => ⟨"contextual_update", [("text", .str text)]⟩
  | .toolCallResult toolCallId result isError =>
      ⟨"tool_call_result",
        [("tool_call_id", .str toolCallId), ("result", .str result),
         ("is_error", .bool isError)]⟩
  | .pong eventId => ⟨"pong", [("event_id", .num eventId)]⟩

/-- The inbound discriminators the decoder recognizes (spec section 6's
frame vocabulary restricted to server-originated events, plus the locally
decodable `tool_call_result` mirror of spec section 8). -/
def recognizedDisc (d : String) : Bool :=
  d = "conversation_initiation_metadata" || d = "user_transcript" ||
  d = "agent_response" || d = "audio" || d = "interruption" ||
  d = "client_tool_call" || d = "ping" || d = "vad_score" ||
  d = "internal_tentative_agent_response" || d = "internal_error" ||
  d = "tool_call_result"

/-- Variant-specific payload parsing for a recognized discriminator;
`none` means the payload does not match the variant's schema. -/
def parseKnown (f : Frame) : Option ServerEvent :=
  match f.disc with
  | "conversation_initiation_metadata" =>
      (getStr f.fields "conversation_id").map .conversationInitiationMetadata
  | "user_transcript" => (getStr f.fields "user_transcript").map .userTranscript
  | "agent_response" => (getStr f.fields "agent_response").map .agentResponse
  | "audio" => (getStr f.fields "audio_base_64").map .audio
  | "interruption" => some .interruption
  | "client_tool_call" =>
      match getStr f.fields "tool_call_id", getStr f.fields "tool_name",
          getStr f.fields "parameters" with
      | some i, some n, some p => some (.clientToolCall i n p)
      | _, _, _ => none
  | "ping" => (getNum f.fields "event_id").map .ping
  | "vad_score" => (getNum f.fields "vad_score").map .vadScore
  | "internal_tentative_agent_response" =>
      (getStr f.fields "text").map .internalTentativeAgentResponse
  | "internal_error" => (getStr f.fields "message").map .internalError
  | "tool_call_result" =>
      match getStr f.fields "tool_call_id", getStr f.fields "result",
          getBool f.fields "is_error" with
      | some i, some r, some e => some (.toolCallResult i r e)
      | _, _, _ => none
  | _ => none

/-- Modelled from the spec: `decode(bytes) -> Result<ServerEvent, DecodeError>`
"inspects a discriminator field first and dispatches to the variant-specific
schema" (spec section 4.1); the codec module is missing from the sources. -/
def decode (f : Frame) : Except DecodeError ServerEvent :=
  if recognizedDisc f.disc then
    match parseKnown f with
    | some e => .ok e
    | none => .error .Malformed
  else
    .error .UnknownVariant

/-- Whether a frame's payload matches the schema of its (recognized)
variant: each required field is present with the required type. -/
def schemaOk (f : Frame) : Bool :=
  match f.disc with
  | "conversation_initiation_metadata" => (getStr f.fields "conversation_id").isSome
  | "user_transcript" => (getStr f.fields "user_transcript").isSome
  | "agent_response" => (getStr f.fields "agent_response").isSome
  | "audio" => (getStr f.fields "audio_base_64").isSome
  | "interruption" => true
  | "client_tool_call" =>
      (getStr f.fields "tool_call_id").isSome &&
      (getStr f.fields "tool_name").isSome &&
      (getStr f.fields "parameters").isSome
  | "ping" => (getNum f.fields "event_id").isSome
  | "vad_score" => (getNum f.fields "vad_score").isSome
  | "internal_tentative_agent_response" => (getStr f.fields "text").isSome
  | "internal_error" => (getStr f.fields "message").isSome
  | "tool_call_result" =>
      (getStr f.fields "tool_call_id").isSome &&
      (getStr f.fields "result").isSome &&
      (getBool f.fields "is_error").isSome
  | _ => false

/-- The server-side mirror of a client event, for the variants that are
valid in both directions (spec section 8: "a locally-constructed mirror of
a tool-call result"). -/
def mirrorOfClient : ClientEvent → Option ServerEvent
  | .toolCallResult toolCallId result isError =>
      some (.toolCallResult toolCallId result isError)
  | _ => none

end ConvAI

namespace ConvAI

/-- Modelled from the spec: session lifecycle states,
"Connecting → Active ⇄ Interrupted → Closing → Closed" (spec section 4.4);
the `client` module is missing from the sources. -/
inductive Lifecycle
  | connecting
  | active
  | interrupted
  | closing
  | closed
deriving DecidableEq, Repr

/-- Modelled from the spec: protocol-usage errors, "send-before-active,
unmatched tool-call result, duplicate result for a resolved ID"
(spec section 7); the `error` module is missing from the sources. -/
inductive ProtocolError
  | SendNotAllowed (state : Lifecycle)
  | UnknownOrResolvedToolCall (toolCallId : String)
deriving DecidableEq, Repr

/-- Modelled from the spec: events the dispatcher surfaces to the caller,
including the diagnostic event for unrecognized discriminators
(spec section 4.3) and the single terminal event on session end
(spec section 7); the `client` module is missing from the sources. -/
inductive CallerEvent
  | transcript (text : String)
  | agentResponse (text : String)
  | toolCall (toolCallId toolName params : String)
  | diagnostic (disc : String)
  | vad (score : Int)
  | tentative (text : String)
  | errorDiag (message : String)
  | terminal
deriving DecidableEq, Repr

/-- Modelled from the spec: the per-connection `Session` state, "current
lifecycle state, ... set of outstanding tool-call IDs" (spec section 3)
together with the audio-buffering state (buffered-but-not-yet-surfaced
chunks and the already-surfaced sequence, spec sections 4.3 and 5) and the
queue of outbound client events (e.g. transparent pongs, spec section 4.3);
the `client` module is missing from the sources. -/
structure Session where
  lifecycle : Lifecycle
  conversationId : Option String
  pending : List String
  bufferedAudio : List String
  surfacedAudio : List String
  outQueue : List ClientEvent
deriving DecidableEq, Repr

/-- A session as created on successful handshake: `Connecting` is initial
(spec section 4.4), nothing assigned, nothing pending, nothing buffered. -/
def Session.initial : Session :=
  ⟨.connecting, none, [], [], [], []⟩

/-- Modelled from the spec: the Event Dispatcher's routing of one decoded
inbound event (spec section 4.3): audio chunks are appended in arrival
order, tool-call requests are registered as pending and surfaced,
interruptions clear buffered audio and move `Active` to `Interrupted`,
pings are answered with a queued pong, initiation metadata records the
conversation ID and moves `Connecting` to `Active`, and the next agent
response moves `Interrupted` back to `Active` (spec section 4.4). -/
def dispatch (s : Session) (e : ServerEvent) : Session × List CallerEvent :=
  match e with
  | .conversationInitiationMetadata cid =>
      if s.lifecycle = .connecting then
        ({ s with lifecycle := .active, conversationId := some cid }, [])
      else (s, [])
  | .userTranscript t => (s, [.transcript t])
  | .agentResponse t =>
      if s.lifecycle = .interrupted then
        ({ s with lifecycle := .active }, [.agentResponse t])
      else (s, [.agentResponse t])
  | .audio c => ({ s with bufferedAudio := s.bufferedAudio ++ [c] }, [])
  | .interruption =>
      if s.lifecycle = .active then
        ({ s with lifecycle := .interrupted, bufferedAudio := [] }, [])
      else ({ s with bufferedAudio := [] }, [])
  | .clientToolCall i n p =>
      ({ s with pending := s.pending ++ [i] }, [.toolCall i n p])
  | .ping eid => ({ s with outQueue := s.outQueue ++ [.pong eid] }, [])
  | .vadScore v => (s, [.vad v])
  | .internalTentativeAgentResponse t => (s, [.tentative t])
  | .internalError m => (s, [.errorDiag m])
  | .toolCallResult _ _ _ => (s, [])

/-- Modelled from the spec: processing one inbound frame is "a two-step
pipeline: decode via Codec, then route" (spec section 4.3); decode
anomalies are surfaced as diagnostics and do not terminate the session
(spec sections 4.3 and 7). -/
def handleFrame (s : Session) (f : Frame) : Session × List CallerEvent :=
  match decode f with
  | .ok e => dispatch s e
  | .error _ => (s, [.diagnostic f.disc])

/-- Fold a list of decoded inbound events through the dispatcher,
discarding the surfaced caller events. -/
def dispatchEvents (s : Session) : List ServerEvent → Session
  | [] => s
  | e :: rest => dispatchEvents (dispatch s e).1 rest

/-- Modelled from the spec: the caller draining the session's buffered
audio, in order; the surfaced sequence accumulates every drained chunk
(spec sections 4.3 and 6: ordered delivery of opaque audio chunks). -/
def takeAudio (s : Session) : Session × List String :=
  ({ s with bufferedAudio := [],
            surfacedAudio := s.surfacedAudio ++ s.bufferedAudio },
   s.bufferedAudio)

/-- Modelled from the spec: the caller submitting a `ToolCallResult`
(spec sections 3, 4.4 and 7): sending while `Connecting` or after
`Closing` is a protocol-usage error; a result whose ID is not in the
pending set (never issued, or already resolved and removed) is a
`ProtocolError` reported to the caller, not a crash; on success the ID is
removed from the pending set and the encoded frame is produced. -/
def submitToolCallResult (s : Session) (toolCallId result : String)
    (isError : Bool) : Session × Except ProtocolError Frame :=
  if s.lifecycle = .connecting ∨ s.lifecycle = .closing ∨ s.lifecycle = .closed then
    (s, .error (.SendNotAllowed s.lifecycle))
  else if s.pending.contains toolCallId then
    ({ s with pending := s.pending.erase toolCallId },
     .ok (encode (.toolCallResult toolCallId result isError)))
  else
    (s, .error (.UnknownOrResolvedToolCall toolCallId))

/-- Modelled from the spec: shutdown initiation, entering `Closing` from
`Active` or `Interrupted` (spec section 4.4); on a session already
`Closing` or `Closed` there is nothing to initiate. -/
def requestClose (s : Session) : Session :=
  match s.lifecycle with
  | .active => { s with lifecycle := .closing }
  | .interrupted => { s with lifecycle := .closing }
  | _ => s

/-- Modelled from the spec: the transport confirming close (graceful or
abort): `Closed` is entered from `Closing`, pending tool-call IDs are
discarded without error (spec section 5), and the transport-level
termination is surfaced once as a terminal event (spec section 7). -/
def confirmClose (s : Session) : Session × List CallerEvent :=
  if s.lifecycle = .closing then
    ({ s with lifecycle := .closed, pending := [], bufferedAudio := [] },
     [.terminal])
  else (s, [])

/-- Modelled from the spec: the caller-facing close operation — initiate
shutdown, then the transport confirms; idempotent, a second close after
`Closed` is a no-op, not an error (spec section 5). -/
def closeSession (s : Session) : Session × List CallerEvent :=
  confirmClose (requestClose s)

/-- The operations that can touch a session after creation: an inbound
frame processed by the receive loop, a caller-submitted tool-call result,
shutdown initiation, and transport close confirmation. -/
inductive SessionOp
  | recvFrame (f : Frame)
  | submitResult (toolCallId result : String) (isError : Bool)
  | requestClose
  | confirmClose
deriving Repr

/-- Apply one operation to a session. -/
def applyOp (s : Session) : SessionOp → Session × List CallerEvent
  | .recvFrame f => handleFrame s f
  | .submitResult i r e => ((submitToolCallResult s i r e).1, [])
  | .requestClose => (requestClose s, [])
  | .confirmClose => confirmClose s

/-- The lifecycle edges of the spec's state diagram (spec section 4.4). -/
def lifecycleEdge : Lifecycle → Lifecycle → Bool
  | .connecting, .active => true
  | .active, .interrupted => true
  | .interrupted, .active => true
  | .active, .closing => true
  | .interrupted, .closing => true
  | .closing, .closed => true
  | _, _ => false

end ConvAI

namespace ConvAI

/-- Helper: for a recognized discriminator, the variant parser succeeds
exactly when the payload matches the variant's schema. -/
theorem parseKnown_isSome_eq_schemaOk (f : Frame)
    (h : recognizedDisc f.disc = true) : (parseKnown f).isSome = schemaOk f := by
  obtain ⟨d, fields⟩ := f
  simp only [recognizedDisc, Bool.or_eq_true, decide_eq_true_eq] at h
  rcases h with ((((((((((h | h) | h) | h) | h) | h) | h) | h) | h) | h) | h) <;>
    subst h <;>
    simp only [parseKnown, schemaOk] <;>
    first
    | rfl
    | (cases getStr fields "conversation_id" <;> rfl)
    | (cases getStr fields "user_transcript" <;> rfl)
    | (cases getStr fields "agent_response" <;> rfl)
    | (cases getStr fields "audio_base_64" <;> rfl)
    | (cases getStr fields "tool_call_id" <;>
        cases getStr fields "tool_name" <;>
        cases getStr fields "parameters" <;> rfl)
    | (cases getNum fields "event_id" <;> rfl)
    | (cases getNum fields "vad_score" <;> rfl)
    | (cases getStr fields "text" <;> rfl)
    | (cases getStr fields "message" <;> rfl)
    | (cases getStr fields "tool_call_id" <;>
        cases getStr fields "result" <;>
        cases getBool fields "is_error" <;> rfl)

/-- Helper: dispatching a run of audio-chunk events appends exactly those
chunks, in order, to the buffered audio and leaves the surfaced audio
untouched. -/
theorem dispatch_audio_run (s : Session) (cs : List String) :
    (dispatchEvents s (cs.map .audio)).bufferedAudio = s.bufferedAudio ++ cs ∧
    (dispatchEvents s (cs.map .audio)).surfacedAudio = s.surfacedAudio := by
  induction cs generalizing s with
  | nil => simp [dispatchEvents]
  | cons c rest ih =>
      simp only [List.map_cons, dispatchEvents, dispatch]
      refine ⟨?_, ?_⟩
      · rw [(ih _).1]
        simp
      · rw [(ih _).2]

/-- Helper: dispatching any single decoded event either leaves the
lifecycle unchanged or follows one of the spec's lifecycle edges. -/
theorem dispatch_lifecycle (s : Session) (e : ServerEvent) :
    (dispatch s e).1.lifecycle = s.lifecycle ∨
    lifecycleEdge s.lifecycle (dispatch s e).1.lifecycle = true := by
  cases e <;> simp only [dispatch] <;>
    first
    | exact Or.inl trivial
    | exact Or.inl rfl
    | (split <;> rename_i hcond <;> simp_all [lifecycleEdge])

/-- C1: for every valid `ClientEvent` value whose variant is valid in both
directions (it has a locally decodable server-side mirror, e.g. a
tool-call result), decoding its encoding succeeds and yields exactly the
mirrored event. -/
theorem clientEvent_roundtrip (v : ClientEvent) (e : ServerEvent)
    (h : mirrorOfClient v = some e) : decode (encode v) = .ok e := by
  cases v <;> simp [mirrorOfClient] at h
  subst h
  simp [decode, encode, recognizedDisc, parseKnown, getStr, getBool, getField]

/-- Witness for C1 at a concrete locally-constructed tool-call result. -/
theorem clientEvent_roundtrip_witness :
    decode (encode (ClientEvent.toolCallResult "tool_1" "42" false)) =
      .ok (ServerEvent.toolCallResult "tool_1" "42" false) :=
  clientEvent_roundtrip (ClientEvent.toolCallResult "tool_1" "42" false)
    (ServerEvent.toolCallResult "tool_1" "42" false) rfl

/-- C2: for every sequence of inbound audio-chunk frames processed on one
session, the audio sequence surfaced to the caller is exactly the arrival
sequence — same chunks, same order, no reordering, duplication or silent
dropping — and the dispatcher never touches the already-surfaced audio. -/
theorem audio_arrival_order_preserved (s : Session) (cs : List String)
    (h : s.bufferedAudio = []) :
    (takeAudio (dispatchEvents s (cs.map .audio))).2 = cs ∧
    (dispatchEvents s (cs.map .audio)).surfacedAudio = s.surfacedAudio := by
  have hd := dispatch_audio_run s cs
  refine ⟨?_, hd.2⟩
  simp [takeAudio, hd.1, h]

/-- Witness for C2 on a fresh session and a concrete chunk sequence. -/
theorem audio_arrival_order_preserved_witness :
    (takeAudio (dispatchEvents Session.initial
        (["chunk_a", "chunk_b", "chunk_c"].map .audio))).2 =
      ["chunk_a", "chunk_b", "chunk_c"] ∧
    (dispatchEvents Session.initial
        (["chunk_a", "chunk_b", "chunk_c"].map .audio)).surfacedAudio =
      Session.initial.surfacedAudio :=
  audio_arrival_order_preserved Session.initial
    ["chunk_a", "chunk_b", "chunk_c"] rfl

/-- C3: in every session state, submitting a `ToolCallResult` whose
correlation ID is not in the pending set (never issued, or already
resolved) returns a `ProtocolError` to the caller and leaves the session —
in particular the pending set — unchanged. -/
theorem submit_unknown_toolCallResult_protocolError (s : Session)
    (i r : String) (e : Bool) (h : s.pending.contains i = false) :
    (submitToolCallResult s i r e).1 = s ∧
    ∃ pe : ProtocolError, (submitToolCallResult s i r e).2 = .error pe := by
  unfold submitToolCallResult
  split
  · exact ⟨rfl, _, rfl⟩
  · rw [if_neg (by rw [h]; simp)]
    exact ⟨rfl, _, rfl⟩

/-- Witness for C3: an active session with pending ID `tool_1` rejects a
result for the never-issued ID `tool_2` without touching the pending set. -/
theorem submit_unknown_toolCallResult_protocolError_witness :
    (submitToolCallResult
        ⟨.active, some "conv_123", ["tool_1"], [], [], []⟩ "tool_2" "7" false).1 =
      ⟨.active, some "conv_123", ["tool_1"], [], [], []⟩ ∧
    ∃ pe : ProtocolError,
      (submitToolCallResult
        ⟨.active, some "conv_123", ["tool_1"], [], [], []⟩ "tool_2" "7" false).2 =
        .error pe :=
  submit_unknown_toolCallResult_protocolError
    ⟨.active, some "conv_123", ["tool_1"], [], [], []⟩ "tool_2" "7" false
    (by decide)

/-- C4: a session starts in `Connecting`, every operation either leaves the
lifecycle unchanged or follows one of the spec's edges (`Connecting→Active`,
`Active→Interrupted`, `Interrupted→Active`, `Active→Closing`,
`Interrupted→Closing`, `Closing→Closed`), and `Closed` is terminal: no
operation moves a session out of `Closed`. -/
theorem lifecycle_transitions_within_spec_edges :
    Session.initial.lifecycle = .connecting ∧
    ∀ (s : Session) (op : SessionOp),
      ((applyOp s op).1.lifecycle = s.lifecycle ∨
        lifecycleEdge s.lifecycle (applyOp s op).1.lifecycle = true) ∧
      (s.lifecycle = .closed → (applyOp s op).1.lifecycle = .closed) := by
  refine ⟨rfl, fun s op => ?_⟩
  have main : (applyOp s op).1.lifecycle = s.lifecycle ∨
      lifecycleEdge s.lifecycle (applyOp s op).1.lifecycle = true := by
    cases op with
    | recvFrame f =>
        simp only [applyOp, handleFrame]
        cases decode f with
        | ok e => exact dispatch_lifecycle s e
        | error err => exact Or.inl rfl
    | submitResult i r e =>
        simp only [applyOp, submitToolCallResult]
        split
        · exact Or.inl rfl
        · split <;> exact Or.inl rfl
    | requestClose =>
        simp only [applyOp, requestClose]
        split <;> simp_all [lifecycleEdge]
    | confirmClose =>
        simp only [applyOp, confirmClose]
        split <;> simp_all [lifecycleEdge]
  refine ⟨main, fun hcl => ?_⟩
  rcases main with h | h
  · rw [h, hcl]
  · rw [hcl] at h
    cases hl : (applyOp s op).1.lifecycle <;> rw [hl] at h <;>
      simp [lifecycleEdge] at h

/-- Witness for C4: no operation moves a concrete closed session out of
`Closed`. -/
theorem lifecycle_transitions_within_spec_edges_witness :
    (applyOp ⟨.closed, some "conv_123", [], [], [], []⟩
      SessionOp.requestClose).1.lifecycle = .closed :=
  (lifecycle_transitions_within_spec_edges.2
    ⟨.closed, some "conv_123", [], [], [], []⟩ SessionOp.requestClose).2 rfl

/-- C5: closing an active or interrupted session reaches `Closed` and
produces exactly one terminal event; a second close call is a no-op on the
state and produces no additional event (and, by the operation's type, no
error), so exactly one terminal event is produced across both calls. -/
theorem closeSession_idempotent (s : Session)
    (h : s.lifecycle = .active ∨ s.lifecycle = .interrupted) :
    (closeSession s).1.lifecycle = .closed ∧
    (closeSession s).2 = [.terminal] ∧
    closeSession (closeSession s).1 = ((closeSession s).1, []) := by
  rcases h with h | h <;>
    simp [closeSession, requestClose, confirmClose, h]

/-- Witness for C5 on a concrete active session. -/
theorem closeSession_idempotent_witness :
    (closeSession ⟨.active, some "conv_123", ["tool_1"], ["b"], [], []⟩).1.lifecycle
      = .closed ∧
    (closeSession ⟨.active, some "conv_123", ["tool_1"], ["b"], [], []⟩).2
      = [.terminal] ∧
    closeSession
        (closeSession ⟨.active, some "conv_123", ["tool_1"], ["b"], [], []⟩).1 =
      ((closeSession ⟨.active, some "conv_123", ["tool_1"], ["b"], [], []⟩).1, []) :=
  closeSession_idempotent ⟨.active, some "conv_123", ["tool_1"], ["b"], [], []⟩
    (Or.inl rfl)

/-- C6: on an active session, an interruption notice followed immediately
by a new agent response drives the state `Active → Interrupted → Active`,
and every agent audio chunk that was buffered but not yet surfaced is
discarded — the buffer is emptied and the surfaced sequence is unchanged. -/
theorem interruption_then_agentResponse (s : Session) (t : String)
    (h : s.lifecycle = .active) :
    ((dispatch s .interruption).1.lifecycle = .interrupted) ∧
    ((dispatch (dispatch s .interruption).1 (.agentResponse t)).1.lifecycle
      = .active) ∧
    ((dispatch s .interruption).1.bufferedAudio = []) ∧
    ((dispatch (dispatch s .interruption).1 (.agentResponse t)).1.bufferedAudio
      = []) ∧
    ((dispatch (dispatch s .interruption).1 (.agentResponse t)).1.surfacedAudio
      = s.surfacedAudio) := by
  simp [dispatch, h]

/-- Witness for C6: an active session with two buffered chunks discards
them across the interruption/agent-response pair. -/
theorem interruption_then_agentResponse_witness :
    ((dispatch ⟨.active, some "conv_123", [], ["b1", "b2"], ["s1"], []⟩
        .interruption).1.lifecycle = .interrupted) ∧
    ((dispatch (dispatch ⟨.active, some "conv_123", [], ["b1", "b2"], ["s1"], []⟩
        .interruption).1 (.agentResponse "hi")).1.lifecycle = .active) ∧
    ((dispatch ⟨.active, some "conv_123", [], ["b1", "b2"], ["s1"], []⟩
        .interruption).1.bufferedAudio = []) ∧
    ((dispatch (dispatch ⟨.active, some "conv_123", [], ["b1", "b2"], ["s1"], []⟩
        .interruption).1 (.agentResponse "hi")).1.bufferedAudio = []) ∧
    ((dispatch (dispatch ⟨.active, some "conv_123", [], ["b1", "b2"], ["s1"], []⟩
        .interruption).1 (.agentResponse "hi")).1.surfacedAudio = ["s1"]) :=
  interruption_then_agentResponse
    ⟨.active, some "conv_123", [], ["b1", "b2"], ["s1"], []⟩ "hi" rfl

/-- C7: decoding yields `UnknownVariant` exactly when the frame's
discriminator is not recognized, `Malformed` exactly when the discriminator
is recognized but the payload does not match that variant's schema, and on
either error the frame handler leaves the session unchanged (no
termination) and surfaces the discriminator as a diagnostic event. -/
theorem decode_error_characterization (f : Frame) :
    ((decode f = .error .UnknownVariant) ↔ recognizedDisc f.disc = false) ∧
    ((decode f = .error .Malformed) ↔
      (recognizedDisc f.disc = true ∧ schemaOk f = false)) ∧
    (∀ s : Session, (decode f).isOk = false →
      (handleFrame s f).1 = s ∧ (handleFrame s f).2 = [.diagnostic f.disc]) := by
  refine ⟨?_, ?_, ?_⟩
  · unfold decode
    cases h : recognizedDisc f.disc
    · simp
    · simp only [if_true]
      cases hp : parseKnown f <;> simp
  · unfold decode
    cases h : recognizedDisc f.disc
    · simp
    · have := parseKnown_isSome_eq_schemaOk f h
      cases hp : parseKnown f <;> simp_all
  · intro s hno
    unfold handleFrame
    cases hd : decode f
    · simp
    · simp [hd, Except.isOk, Except.toBool] at hno

/-- Witness for C7: a frame with an unrecognized discriminator decodes to
`UnknownVariant` and is surfaced as a diagnostic with the session intact. -/
theorem decode_error_characterization_witness :
    decode ⟨"totally_new_event", []⟩ = .error .UnknownVariant ∧
    (handleFrame Session.initial ⟨"totally_new_event", []⟩).1 = Session.initial ∧
    (handleFrame Session.initial ⟨"totally_new_event", []⟩).2 =
      [.diagnostic "totally_new_event"] :=
  ⟨(decode_error_characterization ⟨"totally_new_event", []⟩).1.mpr (by decide),
   ((decode_error_characterization ⟨"totally_new_event", []⟩).2.2
      Session.initial (by decide)).1,
   ((decode_error_characterization ⟨"totally_new_event", []⟩).2.2
      Session.initial (by decide)).2⟩

end ConvAI
